import Mathlib

/-!
Shallow embedding of the tempest-influxdb ingestion core.

Numeric values carried by station payloads are Go `float64`; the claims under
study exercise only exact decimal values and integer rounding, so the machine
floats are modelled as rationals (`ℚ`), with Go's `math.Round`
(round half away from zero) and `int64(x)` truncation made explicit.
-/

namespace TempestInflux

/-- Go `math.Round`: rounds to the nearest integer, halves away from zero. -/
def goRound (x : ℚ) : Int :=
  if 0 ≤ x then (x + 1/2).floor else -(-x + 1/2).floor

/-- Go conversion `int64(x)` for a float value: truncation toward zero. -/
def goTrunc (x : ℚ) : Int :=
  if 0 ≤ x then x.floor else -(-x).floor

/-- Two-digit zero-padded rendering of a value below 100. -/
def pad2 (n : Nat) : String :=
  if n < 10 then "0" ++ toString n else toString n

/-- Go `fmt.Sprintf` with the two-decimal float verb: fixed-point with exactly
two digits after the point (idealised over `ℚ`; every value the claims
exercise has at most two exact decimal digits, where all rounding modes
agree). -/
def format2 (x : ℚ) : String :=
  let n : Int := goRound (x * 100)
  (if n < 0 then "-" else "") ++ toString (n.natAbs / 100) ++ "." ++ pad2 (n.natAbs % 100)

/-- Go `fmt.Sprintf` with the decimal integer verb. -/
def formatInt (n : Int) : String := toString n

/-- Configuration fields consumed by the modelled core
(internal/config/config.go, struct Config). -/
structure Config where
  Influx_Token : String
  Influx_Bucket : String
  Influx_Bucket_Rapid_Wind : String
  Buffer : Int
  Verbose : Bool
  Debug : Bool
  Noop : Bool
  Rapid_Wind : Bool
deriving DecidableEq

/-- Default socket buffer size (internal/config/config.go, `DefaultBuffer = 10240`). -/
def DefaultBuffer : Nat := 10240

/-- Modelled from the spec: the Data Point of the `internal/influx` package,
which is not under src/. Spec section 3: name, bucket, tags, fields
(string to string mappings) and an integer timestamp. The Go maps are
modelled as association lists; map semantics (insertion order is
unobservable) is recovered in the theorems by quantifying over
permutations with duplicate-free keys. -/
structure Data where
  Name : String
  Bucket : String
  Tags : List (String × String)
  Fields : List (String × String)
  Timestamp : Int
deriving DecidableEq

/-- Modelled from the spec: `influx.New()` returns an empty point with empty
tag and field mappings and zero timestamp (spec section 4.1). -/
def Data.new : Data :=
  { Name := "", Bucket := "", Tags := [], Fields := [], Timestamp := 0 }

/-- Key order on field entries, as a Boolean relation for `List.mergeSort`:
lexicographic order on the key characters (Go sorts the keys with the
standard byte-wise string order, which agrees with character order on the
ASCII keys this program emits). -/
def keyLE (a b : String × String) : Bool := decide (a.1.data ≤ b.1.data)

/-- Field entries sorted by key, the stable order the serializer emits. -/
def sortFields (fs : List (String × String)) : List (String × String) :=
  fs.mergeSort keyLE

/-- Rendering of one `key=value` pair. -/
def pairEq (kv : String × String) : String := kv.1 ++ "=" ++ kv.2

/-- Modelled from the spec: `Data.Marshal` of the `internal/influx` package,
which is not under src/. Spec section 4.1: a single-line record
`name,tag1=v1 field1=v1,field2=v2 timestamp` with the field pairs sorted
by key and values emitted verbatim (all numeric formatting happened at
decode time). -/
def Data.Marshal (d : Data) : String :=
  d.Name ++ "," ++ String.intercalate (",") (d.Tags.map pairEq) ++ " " ++
    String.intercalate (",") ((sortFields d.Fields).map pairEq) ++ " " ++
    toString d.Timestamp

/-- Station report after JSON decoding (src/unnamed/part_001, struct Report),
restricted to the fields the decode paths read. `Obs` is the inner slice
`report.Obs[0]`; `Ob` is the JSON `ob` array as sent on the wire, before
Go fits it into the fixed-size `[3]float64` field (see `obFixed`). -/
structure Report where
  StationSerial : String
  ReportType : String
  Obs : List ℚ
  Ob : List ℚ

/-- Errors of the decode paths (src/unnamed/part_001): `ErrInsufficientData`
wrapped with the expected and actual field counts. -/
inductive ParseErr
  | insufficientData (expected got : Nat)
deriving DecidableEq

/-- Go `encoding/json` semantics for decoding a JSON array into the fixed-size
field `Ob [3]float64`: surplus elements are discarded and missing elements
are left at the zero value; a short array is not an error. -/
def obFixed (xs : List ℚ) : List ℚ :=
  xs.take 3 ++ List.replicate (3 - xs.length) 0

/-- Typed observation filled slot by slot from the obs array
(src/unnamed/part_001, parseObservation lines 97-114): slots 4, 5, 9, 11,
13, 14, 15 and 17 pass through `math.Round` into int fields, the rest stay
float. -/
structure ObsStruct where
  Timestamp : Int
  WindLull : ℚ
  WindAvg : ℚ
  WindGust : ℚ
  WindDirection : Int
  WindSampleInterval : Int
  StationPressure : ℚ
  AirTemperature : ℚ
  RelativeHumidity : ℚ
  Illuminance : Int
  UV : ℚ
  SolarRadiation : Int
  PrecipitationAccumulation : ℚ
  PrecipitationType : Int
  StrikeAvgDistance : Int
  StrikeCount : Int
  Battery : ℚ
  Interval : Int

/-- Slot-by-slot conversion of `data := report.Obs[0]` into the typed
observation (parseObservation lines 96-114). -/
def mkObsStruct (data : List ℚ) : ObsStruct :=
  { Timestamp := goTrunc (data.getD 0 0)
    WindLull := data.getD 1 0
    WindAvg := data.getD 2 0
    WindGust := data.getD 3 0
    WindDirection := goRound (data.getD 4 0)
    WindSampleInterval := goRound (data.getD 5 0)
    StationPressure := data.getD 6 0
    AirTemperature := data.getD 7 0
    RelativeHumidity := data.getD 8 0
    Illuminance := goRound (data.getD 9 0)
    UV := data.getD 10 0
    SolarRadiation := goRound (data.getD 11 0)
    PrecipitationAccumulation := data.getD 12 0
    PrecipitationType := goRound (data.getD 13 0)
    StrikeAvgDistance := goRound (data.getD 14 0)
    StrikeCount := goRound (data.getD 15 0)
    Battery := data.getD 16 0
    Interval := goRound (data.getD 17 0) }

/-- Decode path for `obs_st` reports (src/unnamed/part_001, parseObservation).
`dp` stands for the external `dewpoint.Calculate` library call: the Go code
formats whatever value that call returns even when it also reports an
error (the error is only logged), so the call is modelled as a total
function supplied as a parameter. Fewer than 18 obs values is a hard
`ErrInsufficientData`; otherwise the timestamp and the 16-entry field map
are written onto `m`. -/
def parseObservation (dp : ℚ → ℚ → ℚ) (report : Report) (m : Data) :
    Except ParseErr Data :=
  if report.Obs.length < 18 then
    Except.error (ParseErr.insufficientData 18 report.Obs.length)
  else
    let o := mkObsStruct report.Obs
    Except.ok { m with
      Timestamp := o.Timestamp
      Fields := [
        ("battery", format2 o.Battery),
        ("dew_point", format2 (dp o.AirTemperature o.RelativeHumidity)),
        ("humidity", format2 o.RelativeHumidity),
        ("illuminance", formatInt o.Illuminance),
        ("p", format2 o.StationPressure),
        ("precipitation", format2 o.PrecipitationAccumulation),
        ("precipitation_type", formatInt o.PrecipitationType),
        ("solar_radiation", formatInt o.SolarRadiation),
        ("strike_count", formatInt o.StrikeCount),
        ("strike_distance", formatInt o.StrikeAvgDistance),
        ("temp", format2 o.AirTemperature),
        ("uv", format2 o.UV),
        ("wind_avg", format2 o.WindAvg),
        ("wind_direction", formatInt o.WindDirection),
        ("wind_gust", format2 o.WindGust),
        ("wind_lull", format2 o.WindLull)] }

/-- Decode path for `rapid_wind` reports (src/unnamed/part_001,
parseRapidWind). `report.Ob` has Go type `[3]float64`, so its length is
always exactly 3 after JSON decoding (`obFixed`) and the
`len(report.Ob) < 3` guard is retained verbatim from the source even
though it can never fire. -/
def parseRapidWind (report : Report) (m : Data) : Except ParseErr Data :=
  let ob := obFixed report.Ob
  if ob.length < 3 then
    Except.error (ParseErr.insufficientData 3 ob.length)
  else
    Except.ok { m with
      Timestamp := goTrunc (ob.getD 0 0)
      Fields := [
        ("rapid_wind_speed", format2 (ob.getD 1 0)),
        ("rapid_wind_direction", formatInt (goRound (ob.getD 2 0)))] }

/-- Top-level decode dispatch (src/unnamed/part_001, Parse), starting from the
JSON-decoded report. `Except.ok none` models the Go result `(nil, nil)`
(a deliberate no-op), `Except.ok (some m)` models a produced point and
`Except.error` a decode error returning `(nil, err)`. -/
def Parse (dp : ℚ → ℚ → ℚ) (cfg : Config) (report : Report) :
    Except ParseErr (Option Data) :=
  let m0 : Data := { Data.new with Bucket := cfg.Influx_Bucket }
  if report.ReportType = "obs_st" then
    match parseObservation dp report { m0 with Name := "weather" } with
    | Except.error e => Except.error e
    | Except.ok m =>
        Except.ok (some { m with Tags := [("station", report.StationSerial)] })
  else if report.ReportType = "rapid_wind" then
    if !cfg.Rapid_Wind then Except.ok none
    else
      match parseRapidWind report { m0 with Name := "weather" } with
      | Except.error e => Except.error e
      | Except.ok m =>
          let m := { m with Tags := [("station", report.StationSerial)] }
          if cfg.Influx_Bucket_Rapid_Wind ≠ "" then
            Except.ok (some { m with Bucket := cfg.Influx_Bucket_Rapid_Wind })
          else
            Except.ok (some m)
  else
    Except.ok none

/-- Observable actions of the per-packet dispatch unit, in program order
(internal/processor/processor.go, processPacket). -/
inductive Action
  | logDebug
  | logVerbose (line : String)
  | setBucketQuery (bucket : String)
  | createRequest (line : String)
  | logNoop
  | httpSend (line : String)
deriving DecidableEq

/-- Dispatch unit (processor.go, processPacket) modelled from the decoded
report onward, as the ordered list of observable actions it performs.
A parse error or a nil point returns silently (the `lo.TryOr` fallback),
as does a zero timestamp; otherwise the code optionally logs, marshals the
line, sets the bucket query parameter when the bucket is non-empty,
creates the HTTP request, and then either logs and stops in no-op mode or
performs the outbound send. -/
def processPacket (dp : ℚ → ℚ → ℚ) (cfg : Config) (report : Report) :
    List Action :=
  match Parse dp cfg report with
  | Except.error _ => []
  | Except.ok none => []
  | Except.ok (some m) =>
    if m.Timestamp = 0 then []
    else
      (if cfg.Debug then [Action.logDebug] else []) ++
      (let line := m.Marshal
       (if cfg.Verbose then [Action.logVerbose line] else []) ++
       (if m.Bucket ≠ "" then [Action.setBucketQuery m.Bucket] else []) ++
       [Action.createRequest line] ++
       (if cfg.Noop then [Action.logNoop] else [Action.httpSend line]))

/-- One linearised operation against the shared buffer pool; an arbitrary
operation list models any interleaving of concurrent gets and puts, since
`sync.Pool` linearises them. -/
inductive PoolOp
  | get
  | put (len : Nat)

/-- One `sync.Pool` step over the multiset of stored buffer lengths
(processor.go lines 21-25): `Get` hands back a stored buffer or, when the
pool is empty, a fresh `make([]byte, config.DefaultBuffer)`; `Put` stores
the given buffer. Returns the new pool state and the length obtained, if
the operation was a get. -/
def poolStep : List Nat → PoolOp → List Nat × Option Nat
  | [], PoolOp.get => ([], some DefaultBuffer)
  | b :: rest, PoolOp.get => (rest, some b)
  | s, PoolOp.put n => (n :: s, none)

/-- Lengths of all buffers handed out by running an operation list against
the pool. -/
def runPool : List Nat → List PoolOp → List Nat
  | _, [] => []
  | s, op :: ops =>
    (match poolStep s op with
     | (s2, some n) => n :: runPool s2 ops
     | (s2, none) => runPool s2 ops)

/-- Value carried by a Go panic as seen by `recover()`: either a string or a
value of any other dynamic type (for example the `runtime.Error` raised by
a nil dereference or an out-of-range index). -/
inductive PanicValue
  | str (s : String)
  | nonString
deriving DecidableEq

/-- Outcome of one dispatch unit at its boundary. -/
inductive DispatchOutcome
  | completed
  | panicLogged (s : String)
  | panicPropagated
deriving DecidableEq

/-- Deferred recovery handler of processPacket (processor.go lines 48-54):
`recover()` yields the panic value `r` and the handler logs `r.(string)`.
In Go a type assertion without the comma-ok form panics when the dynamic
type is not `string`, and that secondary panic escapes the deferred
function and propagates up the goroutine. -/
def recoverHandler (r : PanicValue) : DispatchOutcome :=
  match r with
  | PanicValue.str s => DispatchOutcome.panicLogged s
  | PanicValue.nonString => DispatchOutcome.panicPropagated

/-- Dispatch boundary: `none` models a unit body that ran without fault,
`some r` a body that panicked with value `r`, handed to the deferred
recovery handler. -/
def dispatchBoundary (fault : Option PanicValue) : DispatchOutcome :=
  match fault with
  | none => DispatchOutcome.completed
  | some r => recoverHandler r

/-- Display mapping of precipitation type codes (src/unnamed/part_001,
method String of PrecipType): indexes a four-entry table when
`int(p) < len(types)` and falls back to the unknown label otherwise. Go
slice indexing `types[p]` panics for a negative index, modelled as
`none`. -/
def precipTypeString (p : Int) : Option String :=
  let types : List String := [("none"), ("rain"), ("hail"), ("rain+hail")]
  if p < (types.length : Int) then
    if h : 0 ≤ p ∧ p.toNat < types.length then some (types.get ⟨p.toNat, h.2⟩)
    else none
  else some ("unknown")

/-- Constant-zero stand-in for the external dew point library call, used in
the concrete evaluations (the dew point value never matters to a claim). -/
def dpZero : ℚ → ℚ → ℚ := fun _ _ => 0

/-- Concrete configuration for the evaluations: primary bucket only, all
flags off. -/
def cfgBase : Config :=
  { Influx_Token := "t", Influx_Bucket := "b", Influx_Bucket_Rapid_Wind := "",
    Buffer := 10240, Verbose := false, Debug := false, Noop := false,
    Rapid_Wind := false }

/-- Configuration with the rapid-wind feature flag enabled and no secondary
bucket. -/
def cfgRapid : Config := { cfgBase with Rapid_Wind := true }

/-- Configuration with the rapid-wind flag enabled and a secondary bucket. -/
def cfgRapidAlt : Config := { cfgRapid with Influx_Bucket_Rapid_Wind := "rw" }

/-- Configuration with no-op delivery mode enabled. -/
def cfgNoop : Config := { cfgBase with Noop := true }

/-- The literal obs array of the spec's round-trip scenario. -/
def obsLiteral : List ℚ :=
  [1500000000, 0.5, 1.2, 2.0, 180, 3, 1013.2, 22.5, 55.0, 1000, 3.1, 200, 0.0,
    0, 0, 0, 12.6, 1]

/-- Concrete obs_st report carrying the literal obs array. -/
def reportObsLiteral : Report :=
  { StationSerial := "ST-001", ReportType := "obs_st", Obs := obsLiteral,
    Ob := [] }

/-- Concrete obs_st report with only 2 obs values. -/
def reportObsShort : Report :=
  { StationSerial := "ST-001", ReportType := "obs_st", Obs := [1500000000, 0.5],
    Ob := [] }

/-- Concrete obs_st report equal to the literal one except that the timestamp
slot is zero. -/
def reportObsZero : Report :=
  { StationSerial := "ST-001", ReportType := "obs_st",
    Obs := [0, 0.5, 1.2, 2.0, 180, 3, 1013.2, 22.5, 55.0, 1000, 3.1, 200, 0.0,
      0, 0, 0, 12.6, 1],
    Ob := [] }

/-- Concrete rapid_wind report whose JSON ob array carries a single number. -/
def reportRapidShort : Report :=
  { StationSerial := "ST-001", ReportType := "rapid_wind", Obs := [],
    Ob := [1500000000] }

/-- The Data Point the decoder produces from `reportObsZero` under `dpZero`
and `cfgBase`. -/
def mObsZero : Data :=
  { Name := "weather", Bucket := "b", Tags := [("station", "ST-001")],
    Fields := [
      ("battery", "12.60"), ("dew_point", "0.00"), ("humidity", "55.00"),
      ("illuminance", "1000"), ("p", "1013.20"), ("precipitation", "0.00"),
      ("precipitation_type", "0"), ("solar_radiation", "200"),
      ("strike_count", "0"), ("strike_distance", "0"), ("temp", "22.50"),
      ("uv", "3.10"), ("wind_avg", "1.20"), ("wind_direction", "180"),
      ("wind_gust", "2.00"), ("wind_lull", "0.50")],
    Timestamp := 0 }

/-- The Data Point the decoder produces from `reportObsLiteral` under `dpZero`
and `cfgBase`: same fields, timestamp 1500000000. -/
def mObsLit : Data := { mObsZero with Timestamp := 1500000000 }

/-- Two Data Points that agree everywhere except field insertion order. -/
def dW1 : Data :=
  { Name := "weather", Bucket := "b", Tags := [("station", "ST")],
    Fields := [("b", "1"), ("a", "2")], Timestamp := 5 }

/-- Permuted-fields twin of `dW1`. -/
def dW2 : Data :=
  { Name := "weather", Bucket := "b", Tags := [("station", "ST")],
    Fields := [("a", "2"), ("b", "1")], Timestamp := 5 }

attribute [local semireducible] Rat.mul Rat.add Rat.sub Rat.inv Rat.ofScientific

theorem keyLE_trans : ∀ a b c : String × String,
    keyLE a b = true → keyLE b c = true → keyLE a c = true := by
  intro a b c hab hbc
  simp only [keyLE, decide_eq_true_eq] at hab hbc ⊢
  exact le_trans hab hbc

theorem keyLE_total : ∀ a b : String × String, (keyLE a b || keyLE b a) = true := by
  intro a b
  simp only [keyLE, Bool.or_eq_true, decide_eq_true_eq]
  exact le_total _ _

theorem sortFields_perm (fs : List (String × String)) : (sortFields fs).Perm fs :=
  List.mergeSort_perm fs keyLE

theorem string_data_inj {s t : String} (h : s.data = t.data) : s = t := by
  cases s
  cases t
  exact congrArg String.mk h

theorem sorted_strict {l : List (String × String)}
    (hle : List.Pairwise (fun a b => keyLE a b = true) l)
    (hnd : (l.map Prod.fst).Nodup) :
    List.Pairwise (fun a b : String × String => a.1.data < b.1.data) l := by
  have hne : List.Pairwise (fun a b : String × String => a.1 ≠ b.1) l :=
    List.pairwise_map.mp hnd
  refine List.Pairwise.imp₂ ?_ hle hne
  intro a b hab hne2
  refine lt_of_le_of_ne ?_ ?_
  · simpa [keyLE] using hab
  · intro hdata
    exact hne2 (string_data_inj hdata)

theorem sortFields_eq_of_perm {l₁ l₂ : List (String × String)}
    (hp : l₁.Perm l₂) (hnd : (l₁.map Prod.fst).Nodup) :
    sortFields l₁ = sortFields l₂ := by
  have hp12 : (sortFields l₁).Perm (sortFields l₂) :=
    ((sortFields_perm l₁).trans hp).trans (sortFields_perm l₂).symm
  have hs₁ := List.sorted_mergeSort keyLE_trans keyLE_total l₁
  have hs₂ := List.sorted_mergeSort keyLE_trans keyLE_total l₂
  have hnd₁ : ((sortFields l₁).map Prod.fst).Nodup :=
    (((sortFields_perm l₁).map Prod.fst).nodup_iff).mpr hnd
  have hnd₂ : ((sortFields l₂).map Prod.fst).Nodup :=
    (((sortFields_perm l₂).map Prod.fst).nodup_iff).mpr
      (((hp.map Prod.fst).nodup_iff).mp hnd)
  exact @List.eq_of_perm_of_sorted _ _
    ⟨fun a b h1 h2 => absurd h1 (asymm h2)⟩ _ _ hp12
    (sorted_strict hs₁ hnd₁) (sorted_strict hs₂ hnd₂)

theorem parse_fields_nonempty (dp : ℚ → ℚ → ℚ) (cfg : Config) (report : Report)
    (m : Data) (h : Parse dp cfg report = Except.ok (some m)) : m.Fields ≠ [] := by
  by_cases h1 : report.ReportType = "obs_st"
  · by_cases h2 : report.Obs.length < 18
    · simp [Parse, h1, parseObservation, h2] at h
    · simp [Parse, h1, parseObservation, h2] at h
      rw [← h]
      simp
  · by_cases h3 : report.ReportType = "rapid_wind"
    · by_cases h4 : cfg.Rapid_Wind = true
      · have hlen : ¬ (obFixed report.Ob).length < 3 := by
          simp [obFixed]
          omega
        by_cases hb : cfg.Influx_Bucket_Rapid_Wind = ""
        · simp [Parse, h1, h3, h4, parseRapidWind, hlen, hb] at h
          rw [← h]
          simp
        · simp [Parse, h1, h3, h4, parseRapidWind, hlen, hb] at h
          rw [← h]
          simp
      · simp [Parse, h1, h3, h4] at h
    · simp [Parse, h1, h3] at h

theorem parse_noop_irrelevant (dp : ℚ → ℚ → ℚ) (cfg : Config) (report : Report) :
    Parse dp { cfg with Noop := false } report = Parse dp cfg report := rfl

theorem obs_literal_eval :
    ((Parse dpZero cfgBase reportObsLiteral).toOption.join.map (fun d =>
        (d.Timestamp, [d.Fields.lookup ("wind_avg"), d.Fields.lookup ("wind_direction"),
         d.Fields.lookup ("temp"), d.Fields.lookup ("humidity"),
         d.Fields.lookup ("battery")]))) =
      some ((1500000000 : Int), [some ("1.20"), some ("180"), some ("22.50"),
        some ("55.00"), some ("12.60")]) := by decide

/-- C1: for every obs_st report whose obs array holds at least 18 numeric
values, decoding succeeds and produces a Data Point with exactly the 16
named fields (battery, dew_point, humidity, illuminance, p, precipitation,
precipitation_type, solar_radiation, strike_count, strike_distance, temp,
uv, wind_avg, wind_direction, wind_gust, wind_lull) plus one station tag;
for fewer than 18 values, decoding fails with the insufficient-data error
and produces no Data Point. -/
theorem obs_st_decode (dp : ℚ → ℚ → ℚ) (cfg : Config) (report : Report)
    (ht : report.ReportType = "obs_st") :
    (18 ≤ report.Obs.length →
      ∃ m, Parse dp cfg report = Except.ok (some m) ∧
        m.Fields.map Prod.fst = [("battery"), ("dew_point"), ("humidity"),
          ("illuminance"), ("p"), ("precipitation"), ("precipitation_type"),
          ("solar_radiation"), ("strike_count"), ("strike_distance"), ("temp"),
          ("uv"), ("wind_avg"), ("wind_direction"), ("wind_gust"), ("wind_lull")] ∧
        m.Fields.length = 16 ∧ m.Tags = [(("station"), report.StationSerial)]) ∧
    (report.Obs.length < 18 →
      Parse dp cfg report =
        Except.error (ParseErr.insufficientData 18 report.Obs.length)) := by
  constructor
  · intro h
    have hlt : ¬ report.Obs.length < 18 := by omega
    apply Exists.intro
    constructor
    · simp [Parse, ht, parseObservation, hlt]
      rfl
    · exact ⟨rfl, rfl, rfl⟩
  · intro h
    simp [Parse, ht, parseObservation, h]

/-- Witness for C1 at the literal obs array (18 values) and at a 2-value
array. -/
theorem obs_st_decode_witness :
    (reportObsLiteral.ReportType = "obs_st" ∧ 18 ≤ reportObsLiteral.Obs.length ∧
      (∃ m, Parse dpZero cfgBase reportObsLiteral = Except.ok (some m) ∧
        m.Fields.map Prod.fst = [("battery"), ("dew_point"), ("humidity"),
          ("illuminance"), ("p"), ("precipitation"), ("precipitation_type"),
          ("solar_radiation"), ("strike_count"), ("strike_distance"), ("temp"),
          ("uv"), ("wind_avg"), ("wind_direction"), ("wind_gust"), ("wind_lull")] ∧
        m.Fields.length = 16 ∧
        m.Tags = [(("station"), reportObsLiteral.StationSerial)])) ∧
    (reportObsShort.Obs.length < 18 ∧
      Parse dpZero cfgBase reportObsShort =
        Except.error (ParseErr.insufficientData 18 reportObsShort.Obs.length)) :=
  ⟨⟨rfl, by decide,
    (obs_st_decode dpZero cfgBase reportObsLiteral rfl).1 (by decide)⟩,
   ⟨by decide, (obs_st_decode dpZero cfgBase reportObsShort rfl).2 (by decide)⟩⟩

/-- C2: a Data Point is forwarded to the Delivery Client only if its timestamp
is nonzero and its fields map is non-empty; a decoded point with zero
timestamp ends the dispatch unit without any delivery attempt, and every
point Parse returns has a non-empty fields map by construction. -/
theorem forwarded_invariant (dp : ℚ → ℚ → ℚ) (cfg : Config) (report : Report)
    (m : Data) (h : Parse dp cfg report = Except.ok (some m)) :
    m.Fields ≠ [] ∧
    (m.Timestamp = 0 → processPacket dp cfg report = []) ∧
    (∀ line, Action.httpSend line ∈ processPacket dp cfg report →
      m.Timestamp ≠ 0 ∧ m.Fields ≠ []) := by
  have hne : m.Fields ≠ [] := parse_fields_nonempty dp cfg report m h
  refine ⟨hne, ?_, ?_⟩
  · intro h0
    simp [processPacket, h, h0]
  · intro line hline
    refine ⟨?_, hne⟩
    intro h0
    simp [processPacket, h, h0] at hline

/-- Witness for C2 at the zero-timestamp obs report. -/
theorem forwarded_invariant_witness :
    Parse dpZero cfgBase reportObsZero = Except.ok (some mObsZero) ∧
    (mObsZero.Fields ≠ [] ∧
     (mObsZero.Timestamp = 0 → processPacket dpZero cfgBase reportObsZero = []) ∧
     (∀ line, Action.httpSend line ∈ processPacket dpZero cfgBase reportObsZero →
       mObsZero.Timestamp ≠ 0 ∧ mObsZero.Fields ≠ [])) := by
  have hEq : Parse dpZero cfgBase reportObsZero = Except.ok (some mObsZero) := by
    rfl
  exact ⟨hEq, forwarded_invariant dpZero cfgBase reportObsZero mObsZero hEq⟩

/-- C3: evaluation of the dispatch boundary model. A fault-free unit completes
and a panic carrying a string is logged, but a panic carrying any other
value makes the recovery handler's string type assertion panic in turn, so
the fault propagates out of the dispatch unit instead of being downgraded
to a logged error — contradicting the claim that no fault of any kind
propagates. -/
theorem dispatch_boundary_eval :
    dispatchBoundary none = DispatchOutcome.completed ∧
    (∀ s, dispatchBoundary (some (PanicValue.str s)) = DispatchOutcome.panicLogged s) ∧
    dispatchBoundary (some PanicValue.nonString) = DispatchOutcome.panicPropagated :=
  ⟨rfl, fun _ => rfl, rfl⟩

/-- C4: for rapid_wind reports, decoding produces a Data Point exactly when
the feature flag is enabled; a produced point carries exactly the two
fields rapid_wind_speed and rapid_wind_direction and is routed to the
secondary bucket exactly when one is configured, otherwise to the primary
bucket. -/
theorem rapid_wind_decode (dp : ℚ → ℚ → ℚ) (cfg : Config) (report : Report)
    (ht : report.ReportType = "rapid_wind") :
    (cfg.Rapid_Wind = false → Parse dp cfg report = Except.ok none) ∧
    (cfg.Rapid_Wind = true →
      ∃ m, Parse dp cfg report = Except.ok (some m) ∧
        m.Fields.map Prod.fst = [("rapid_wind_speed"), ("rapid_wind_direction")] ∧
        m.Fields.length = 2 ∧
        m.Bucket = (if cfg.Influx_Bucket_Rapid_Wind = "" then cfg.Influx_Bucket
          else cfg.Influx_Bucket_Rapid_Wind)) := by
  constructor
  · intro hflag
    simp [Parse, ht, hflag]
  · intro hflag
    have hlen : ¬ (obFixed report.Ob).length < 3 := by
      simp [obFixed]
      omega
    by_cases hb : cfg.Influx_Bucket_Rapid_Wind = ""
    · apply Exists.intro
      constructor
      · simp [Parse, ht, hflag, parseRapidWind, hlen, hb]
        rfl
      · exact ⟨rfl, rfl, by simp [hb]⟩
    · apply Exists.intro
      constructor
      · simp [Parse, ht, hflag, parseRapidWind, hlen, hb]
        rfl
      · exact ⟨rfl, rfl, by simp [hb]⟩

/-- Witness for C4: flag on without and with a secondary bucket, and flag
off. -/
theorem rapid_wind_decode_witness :
    (cfgRapid.Rapid_Wind = true ∧
      ∃ m, Parse dpZero cfgRapid reportRapidShort = Except.ok (some m) ∧
        m.Fields.map Prod.fst = [("rapid_wind_speed"), ("rapid_wind_direction")] ∧
        m.Fields.length = 2 ∧
        m.Bucket = (if cfgRapid.Influx_Bucket_Rapid_Wind = "" then
          cfgRapid.Influx_Bucket else cfgRapid.Influx_Bucket_Rapid_Wind)) ∧
    (cfgRapidAlt.Rapid_Wind = true ∧
      ∃ m, Parse dpZero cfgRapidAlt reportRapidShort = Except.ok (some m) ∧
        m.Fields.map Prod.fst = [("rapid_wind_speed"), ("rapid_wind_direction")] ∧
        m.Fields.length = 2 ∧
        m.Bucket = (if cfgRapidAlt.Influx_Bucket_Rapid_Wind = "" then
          cfgRapidAlt.Influx_Bucket else cfgRapidAlt.Influx_Bucket_Rapid_Wind)) ∧
    (cfgBase.Rapid_Wind = false ∧
      Parse dpZero cfgBase reportRapidShort = Except.ok none) :=
  ⟨⟨rfl, (rapid_wind_decode dpZero cfgRapid reportRapidShort rfl).2 rfl⟩,
   ⟨rfl, (rapid_wind_decode dpZero cfgRapidAlt reportRapidShort rfl).2 rfl⟩,
   ⟨rfl, (rapid_wind_decode dpZero cfgBase reportRapidShort rfl).1 rfl⟩⟩

/-- C5: evaluation of the decode path at a rapid_wind report whose JSON ob
array carries a single number. Because the Go field `Ob` has the
fixed-size type `[3]float64`, JSON decoding zero-fills the missing slots
and the `len(report.Ob) < 3` guard can never fire, so decoding succeeds
with zero-valued wind fields instead of failing with InsufficientData as
the claim requires. -/
theorem rapid_wind_short_ob_accepted :
    (∀ xs : List ℚ, (obFixed xs).length = 3) ∧
    Parse dpZero cfgRapid reportRapidShort =
      Except.ok (some { Name := "weather", Bucket := "b",
                        Tags := [("station", "ST-001")],
                        Fields := [("rapid_wind_speed", "0.00"),
                          ("rapid_wind_direction", "0")],
                        Timestamp := 1500000000 }) := by
  constructor
  · intro xs
    simp [obFixed]
    omega
  · rfl

/-- C6 counterexample: with a configuration whose buffer size is 2048, a get
on the empty pool hands out a fresh buffer of length `DefaultBuffer`
(10240), not of the configured size — the pool's allocator uses the
compile-time constant, never the configuration. -/
theorem bufferpool_config_counterexample :
    runPool [] [PoolOp.get] = [DefaultBuffer] ∧
    ({ cfgBase with Buffer := 2048 } : Config).Buffer = 2048 ∧
    (DefaultBuffer : Int) ≠ ({ cfgBase with Buffer := 2048 } : Config).Buffer := by
  refine ⟨rfl, rfl, by decide⟩

/-- C6 (amended): every buffer obtained from the shared pool has length
`DefaultBuffer` (10240) — the compile-time default receive buffer size,
independent of the configured size — under any linearised sequence of
concurrent get and put operations in which every buffer put back has that
length. -/
theorem bufferpool_default_size (s : List Nat) (ops : List PoolOp)
    (hs : ∀ b ∈ s, b = DefaultBuffer)
    (hops : ∀ n, PoolOp.put n ∈ ops → n = DefaultBuffer) :
    ∀ n ∈ runPool s ops, n = DefaultBuffer := by
  induction ops generalizing s with
  | nil => simp [runPool]
  | cons op rest ih =>
    cases op with
    | get =>
      cases s with
      | nil =>
        simp only [runPool, poolStep]
        intro n hn
        rcases List.mem_cons.mp hn with h | h
        · exact h
        · exact ih [] (by simp) (fun k hk => hops k (List.mem_cons_of_mem _ hk)) n h
      | cons b bs =>
        simp only [runPool, poolStep]
        intro n hn
        rcases List.mem_cons.mp hn with h | h
        · exact h ▸ hs b (List.mem_cons_self _ _)
        · exact ih bs (fun x hx => hs x (List.mem_cons_of_mem _ hx))
            (fun k hk => hops k (List.mem_cons_of_mem _ hk)) n h
    | put k =>
      simp only [runPool, poolStep]
      intro n hn
      refine ih (k :: s) ?_ (fun j hj => hops j (List.mem_cons_of_mem _ hj)) n hn
      intro x hx
      rcases List.mem_cons.mp hx with h | h
      · exact h ▸ hops k (List.mem_cons_self _ _)
      · exact hs x h

/-- Witness for the amended C6: a get, a put of a default-sized buffer and
two further gets, starting from the empty pool. -/
theorem bufferpool_default_size_witness :
    (∀ b ∈ ([] : List Nat), b = DefaultBuffer) ∧
    (∀ n, PoolOp.put n ∈
        [PoolOp.get, PoolOp.put DefaultBuffer, PoolOp.get, PoolOp.get] →
      n = DefaultBuffer) ∧
    (∀ n ∈ runPool []
        [PoolOp.get, PoolOp.put DefaultBuffer, PoolOp.get, PoolOp.get],
      n = DefaultBuffer) := by
  have hs : ∀ b ∈ ([] : List Nat), b = DefaultBuffer := by simp
  have hops : ∀ n, PoolOp.put n ∈
      [PoolOp.get, PoolOp.put DefaultBuffer, PoolOp.get, PoolOp.get] →
      n = DefaultBuffer := by
    intro n hn
    simpa using hn
  exact ⟨hs, hops, bufferpool_default_size [] _ hs hops⟩

/-- C7: decoding rounds the angle and count slots (wind direction, wind
sample interval, illuminance, solar radiation, precipitation type, strike
distance, strike count, reporting interval) to the nearest integer and
keeps the other slots as real values formatted with two decimals; on the
literal obs array the point carries wind_avg 1.20, wind_direction 180,
temp 22.50, humidity 55.00, battery 12.60 and timestamp 1500000000. -/
theorem obs_slot_formatting (dp : ℚ → ℚ → ℚ) (cfg : Config) (report : Report)
    (m : Data) (ht : report.ReportType = "obs_st")
    (h : Parse dp cfg report = Except.ok (some m)) :
    (m.Fields.lookup ("wind_direction") = some (formatInt (goRound (report.Obs.getD 4 0))) ∧
     m.Fields.lookup ("illuminance") = some (formatInt (goRound (report.Obs.getD 9 0))) ∧
     m.Fields.lookup ("solar_radiation") = some (formatInt (goRound (report.Obs.getD 11 0))) ∧
     m.Fields.lookup ("precipitation_type") = some (formatInt (goRound (report.Obs.getD 13 0))) ∧
     m.Fields.lookup ("strike_distance") = some (formatInt (goRound (report.Obs.getD 14 0))) ∧
     m.Fields.lookup ("strike_count") = some (formatInt (goRound (report.Obs.getD 15 0))) ∧
     (mkObsStruct report.Obs).WindSampleInterval = goRound (report.Obs.getD 5 0) ∧
     (mkObsStruct report.Obs).Interval = goRound (report.Obs.getD 17 0) ∧
     m.Fields.lookup ("wind_lull") = some (format2 (report.Obs.getD 1 0)) ∧
     m.Fields.lookup ("wind_avg") = some (format2 (report.Obs.getD 2 0)) ∧
     m.Fields.lookup ("wind_gust") = some (format2 (report.Obs.getD 3 0)) ∧
     m.Fields.lookup ("p") = some (format2 (report.Obs.getD 6 0)) ∧
     m.Fields.lookup ("temp") = some (format2 (report.Obs.getD 7 0)) ∧
     m.Fields.lookup ("humidity") = some (format2 (report.Obs.getD 8 0)) ∧
     m.Fields.lookup ("uv") = some (format2 (report.Obs.getD 10 0)) ∧
     m.Fields.lookup ("precipitation") = some (format2 (report.Obs.getD 12 0)) ∧
     m.Fields.lookup ("battery") = some (format2 (report.Obs.getD 16 0)) ∧
     m.Timestamp = goTrunc (report.Obs.getD 0 0)) ∧
    ((Parse dpZero cfgBase reportObsLiteral).toOption.join.map (fun d =>
        (d.Timestamp, [d.Fields.lookup ("wind_avg"), d.Fields.lookup ("wind_direction"),
         d.Fields.lookup ("temp"), d.Fields.lookup ("humidity"),
         d.Fields.lookup ("battery")])) =
      some ((1500000000 : Int), [some ("1.20"), some ("180"), some ("22.50"),
        some ("55.00"), some ("12.60")])) := by
  by_cases h2 : report.Obs.length < 18
  · simp [Parse, ht, parseObservation, h2] at h
  · simp [Parse, ht, parseObservation, h2] at h
    refine ⟨?_, obs_literal_eval⟩
    rw [← h]
    exact ⟨rfl, rfl, rfl, rfl, rfl, rfl, rfl, rfl, rfl, rfl, rfl, rfl, rfl,
      rfl, rfl, rfl, rfl, rfl⟩

/-- Witness for C7 at the literal obs array. -/
theorem obs_slot_formatting_witness :
    Parse dpZero cfgBase reportObsLiteral = Except.ok (some mObsLit) ∧
    ((mObsLit.Fields.lookup ("wind_direction") = some (formatInt (goRound (reportObsLiteral.Obs.getD 4 0))) ∧
      mObsLit.Fields.lookup ("illuminance") = some (formatInt (goRound (reportObsLiteral.Obs.getD 9 0))) ∧
      mObsLit.Fields.lookup ("solar_radiation") = some (formatInt (goRound (reportObsLiteral.Obs.getD 11 0))) ∧
      mObsLit.Fields.lookup ("precipitation_type") = some (formatInt (goRound (reportObsLiteral.Obs.getD 13 0))) ∧
      mObsLit.Fields.lookup ("strike_distance") = some (formatInt (goRound (reportObsLiteral.Obs.getD 14 0))) ∧
      mObsLit.Fields.lookup ("strike_count") = some (formatInt (goRound (reportObsLiteral.Obs.getD 15 0))) ∧
      (mkObsStruct reportObsLiteral.Obs).WindSampleInterval = goRound (reportObsLiteral.Obs.getD 5 0) ∧
      (mkObsStruct reportObsLiteral.Obs).Interval = goRound (reportObsLiteral.Obs.getD 17 0) ∧
      mObsLit.Fields.lookup ("wind_lull") = some (format2 (reportObsLiteral.Obs.getD 1 0)) ∧
      mObsLit.Fields.lookup ("wind_avg") = some (format2 (reportObsLiteral.Obs.getD 2 0)) ∧
      mObsLit.Fields.lookup ("wind_gust") = some (format2 (reportObsLiteral.Obs.getD 3 0)) ∧
      mObsLit.Fields.lookup ("p") = some (format2 (reportObsLiteral.Obs.getD 6 0)) ∧
      mObsLit.Fields.lookup ("temp") = some (format2 (reportObsLiteral.Obs.getD 7 0)) ∧
      mObsLit.Fields.lookup ("humidity") = some (format2 (reportObsLiteral.Obs.getD 8 0)) ∧
      mObsLit.Fields.lookup ("uv") = some (format2 (reportObsLiteral.Obs.getD 10 0)) ∧
      mObsLit.Fields.lookup ("precipitation") = some (format2 (reportObsLiteral.Obs.getD 12 0)) ∧
      mObsLit.Fields.lookup ("battery") = some (format2 (reportObsLiteral.Obs.getD 16 0)) ∧
      mObsLit.Timestamp = goTrunc (reportObsLiteral.Obs.getD 0 0)) ∧
     ((Parse dpZero cfgBase reportObsLiteral).toOption.join.map (fun d =>
         (d.Timestamp, [d.Fields.lookup ("wind_avg"), d.Fields.lookup ("wind_direction"),
          d.Fields.lookup ("temp"), d.Fields.lookup ("humidity"),
          d.Fields.lookup ("battery")])) =
       some ((1500000000 : Int), [some ("1.20"), some ("180"), some ("22.50"),
         some ("55.00"), some ("12.60")]))) := by
  have hEq : Parse dpZero cfgBase reportObsLiteral = Except.ok (some mObsLit) := by
    rfl
  exact ⟨hEq,
    obs_slot_formatting dpZero cfgBase reportObsLiteral mObsLit rfl hEq⟩

/-- C8 (modelled from the spec, internal/influx is not under src/):
serialization is deterministic — two Data Points with the same name, the
same tags, the same timestamp and fields maps holding the same entries
(a permutation with duplicate-free keys, as for identical Go maps
enumerated in different orders) marshal to byte-identical lines. -/
theorem marshal_deterministic (d₁ d₂ : Data) (hn : d₁.Name = d₂.Name)
    (ht : d₁.Tags = d₂.Tags) (hts : d₁.Timestamp = d₂.Timestamp)
    (hf : d₁.Fields.Perm d₂.Fields) (hnd : (d₁.Fields.map Prod.fst).Nodup) :
    d₁.Marshal = d₂.Marshal := by
  unfold Data.Marshal
  rw [hn, ht, hts, sortFields_eq_of_perm hf hnd]

/-- Witness for C8 on the two concrete points with swapped field order. -/
theorem marshal_deterministic_witness :
    dW1.Name = dW2.Name ∧ dW1.Tags = dW2.Tags ∧ dW1.Timestamp = dW2.Timestamp ∧
    dW1.Fields.Perm dW2.Fields ∧ (dW1.Fields.map Prod.fst).Nodup ∧
    dW1.Marshal = dW2.Marshal := by
  have hp : dW1.Fields.Perm dW2.Fields := by decide
  have hnd : (dW1.Fields.map Prod.fst).Nodup := by decide
  exact ⟨rfl, rfl, rfl, hp, hnd, marshal_deterministic dW1 dW2 rfl rfl rfl hp hnd⟩

/-- C9: with no-op delivery mode set, the dispatch unit performs no outbound
send: either it ends silently in both modes, or it performs exactly the
same action prefix as normal mode up to the creation of the request and
then logs the skipped delivery where normal mode would send. -/
theorem noop_no_send (dp : ℚ → ℚ → ℚ) (cfg : Config) (report : Report)
    (h : cfg.Noop = true) :
    (∀ line, Action.httpSend line ∉ processPacket dp cfg report) ∧
    ((processPacket dp cfg report = [] ∧
      processPacket dp { cfg with Noop := false } report = []) ∨
     (∃ pre line, processPacket dp cfg report = pre ++ [Action.logNoop] ∧
       processPacket dp { cfg with Noop := false } report =
         pre ++ [Action.httpSend line] ∧
       ∀ a ∈ pre, ∀ l, a ≠ Action.httpSend l)) := by
  cases hP : Parse dp cfg report with
  | error e =>
    constructor
    · intro line
      simp [processPacket, hP]
    · left
      constructor
      · simp [processPacket, hP]
      · simp [processPacket, parse_noop_irrelevant, hP]
  | ok o =>
    cases o with
    | none =>
      constructor
      · intro line
        simp [processPacket, hP]
      · left
        constructor
        · simp [processPacket, hP]
        · simp [processPacket, parse_noop_irrelevant, hP]
    | some m =>
      by_cases hT : m.Timestamp = 0
      · constructor
        · intro line
          simp [processPacket, hP, hT]
        · left
          constructor
          · simp [processPacket, hP, hT]
          · simp [processPacket, parse_noop_irrelevant, hP, hT]
      · constructor
        · intro line
          simp [processPacket, hP, hT, h]
        · right
          refine ⟨(if cfg.Debug then [Action.logDebug] else []) ++
            ((if cfg.Verbose then [Action.logVerbose m.Marshal] else []) ++
             (if m.Bucket ≠ "" then [Action.setBucketQuery m.Bucket] else []) ++
             [Action.createRequest m.Marshal]), m.Marshal, ?_, ?_, ?_⟩
          · simp [processPacket, hP, hT, h]
          · simp [processPacket, parse_noop_irrelevant, hP, hT, h]
          · intro a ha l
            simp at ha
            rcases ha with ⟨h1, ha⟩ | ⟨h1, ha⟩ | ⟨h1, ha⟩ | ha <;> simp [ha]

/-- Witness for C9 on the literal obs report under the no-op
configuration. -/
theorem noop_no_send_witness :
    cfgNoop.Noop = true ∧
    ((∀ line, Action.httpSend line ∉ processPacket dpZero cfgNoop reportObsLiteral) ∧
     ((processPacket dpZero cfgNoop reportObsLiteral = [] ∧
       processPacket dpZero { cfgNoop with Noop := false } reportObsLiteral = []) ∨
      (∃ pre line,
        processPacket dpZero cfgNoop reportObsLiteral = pre ++ [Action.logNoop] ∧
        processPacket dpZero { cfgNoop with Noop := false } reportObsLiteral =
          pre ++ [Action.httpSend line] ∧
        ∀ a ∈ pre, ∀ l, a ≠ Action.httpSend l))) :=
  ⟨rfl, noop_no_send dpZero cfgNoop reportObsLiteral rfl⟩

/-- C10 counterexample: a negative precipitation type code is out of range,
but instead of mapping to the unknown label the display mapping panics
(Go slice indexing with a negative index), modelled as `none`. -/
theorem precip_negative_not_unknown :
    precipTypeString (-1) = none ∧ precipTypeString (-1) ≠ some ("unknown") := by
  refine ⟨rfl, by decide⟩

/-- C10 (amended): the display mapping yields none for 0, rain for 1, hail
for 2, rain+hail for 3 and unknown for every code of 4 or more, while a
negative code makes the lookup panic instead of returning the unknown
label; the stored precipitation_type field always remains the raw integer
code rounded from the payload slot. -/
theorem precip_mapping (p : Int) (dp : ℚ → ℚ → ℚ) (cfg : Config)
    (report : Report) (m : Data) (ht : report.ReportType = "obs_st")
    (h : Parse dp cfg report = Except.ok (some m)) :
    (0 ≤ p →
      precipTypeString p =
        some (if p = 0 then ("none") else if p = 1 then ("rain")
          else if p = 2 then ("hail") else if p = 3 then ("rain+hail")
          else ("unknown"))) ∧
    (p < 0 → precipTypeString p = none) ∧
    m.Fields.lookup ("precipitation_type") =
      some (formatInt (goRound (report.Obs.getD 13 0))) := by
  refine ⟨?_, ?_, ?_⟩
  · intro h0
    by_cases e0 : p = 0
    · subst e0; decide
    · by_cases e1 : p = 1
      · subst e1; decide
      · by_cases e2 : p = 2
        · subst e2; decide
        · by_cases e3 : p = 3
          · subst e3; decide
          · have h4 : ¬ p < 4 := by omega
            simp [precipTypeString, h4, e0, e1, e2, e3]
  · intro hneg
    have h1 : p < 4 := by omega
    have h2 : ¬ 0 ≤ p := by omega
    simp [precipTypeString, h1, h2]
  · by_cases h2 : report.Obs.length < 18
    · simp [Parse, ht, parseObservation, h2] at h
    · simp [Parse, ht, parseObservation, h2] at h
      rw [← h]
      rfl

/-- Witness for the amended C10 at the out-of-range code 7 and the literal
obs report. -/
theorem precip_mapping_witness :
    (0 ≤ (7 : Int) ∧
      precipTypeString 7 =
        some (if (7 : Int) = 0 then ("none") else if (7 : Int) = 1 then ("rain")
          else if (7 : Int) = 2 then ("hail") else if (7 : Int) = 3 then ("rain+hail")
          else ("unknown"))) ∧
    Parse dpZero cfgBase reportObsLiteral = Except.ok (some mObsLit) ∧
    mObsLit.Fields.lookup ("precipitation_type") =
      some (formatInt (goRound (reportObsLiteral.Obs.getD 13 0))) := by
  have hEq : Parse dpZero cfgBase reportObsLiteral = Except.ok (some mObsLit) := by
    rfl
  refine ⟨⟨by decide, ?_⟩, hEq, ?_⟩
  · exact (precip_mapping 7 dpZero cfgBase reportObsLiteral mObsLit rfl hEq).1
      (by decide)
  · exact (precip_mapping 7 dpZero cfgBase reportObsLiteral mObsLit rfl hEq).2.2

end TempestInflux
